import Mathlib

/-!
Verification of the ROCmExp vector-add benchmark suite.

The repository contains one consolidated driver (`VectorAdd/main.cpp`) and
several near-duplicate revisions of the same program (`unnamed/part_000` …
`unnamed/part_004`), plus shared headers (`common.h`, `hiperror.h`) and the
device kernel (`kernel.cpp`).  The definitions below are shallow embeddings of
the relevant pieces of that source: host floats hold only small exact integer
values in this program, so elements are modelled as `Int`; HIP status codes are
modelled as `Nat` with `hipSuccess = 0`; device buffers are `Nat → Option Int`
(`none` = never written); fallible code returns `Except`.
-/

/-! ### Constants shared by the drivers (main.cpp, part_000, part_003, part_004) -/

def LEN : Nat := 0x100000

def SIZE : Nat := LEN * 4

def THREADS_PER_BLOCK_X : Nat := 32

def LOOP_main : Nat := 1000

def LOOP_part003 : Nat := 5000

def KERNELNAME : String := "vectoradd"

def NOP_KERNELNAME : String := "mynop"

/-! ### Error-reporting layer (`common.h`: `HIPError::message`, `hipCheck`;
`hiperror.h`'s `errorCheck` is textually identical).
`getStr`/`getName` stand for the external runtime's `hipGetErrorString` /
`hipGetErrorName`. -/

def hipSuccess : Nat := 0

def hipErrorMessage (getStr getName : Nat → String) (ec : Nat) (what : String) : String :=
  what ++ ": " ++ getStr ec ++ " (" ++ getName ec ++ ")"

def hipCheck (getStr getName : Nat → String) (status : Nat) (what : String) :
    Except String Unit :=
  if status ≠ hipSuccess then
    Except.error (hipErrorMessage getStr getName status what)
  else
    Except.ok ()

/-! ### Process exit behaviour.
`mainExitCatch` embeds the `main` of part_000 and part_003: the worker runs
under try/catch, an uncaught failure prints and returns 1, otherwise `main`
returns 0 (part_003 binds `int errors = mainworker();` and discards it).
`mainExitReturn` embeds the `main` of VectorAdd/main.cpp, part_001, part_002
and part_004, which end with `return errors;`. -/

def mainExitCatch (r : Except String Nat) : Nat :=
  match r with
  | Except.error _ => 1
  | Except.ok _ => 0

def mainExitReturn (errors : Nat) : Nat := errors

/-! ### Launch geometry selection in `runkernel`.
part_000 (lines 39-40) and part_003 (lines 67-68) compute
`globalr = strcmp(name, NOP_KERNELNAME) ? LEN/THREADS_PER_BLOCK_X : 1` (and
likewise `localr`); `strcmp` is zero exactly on equal strings.  part_004's
`runkernel` (lines 67-77) performs no name comparison at all. -/

def runkernelGeom_part000 (name : String) : Nat × Nat :=
  if name = NOP_KERNELNAME then (1, 1)
  else (LEN / THREADS_PER_BLOCK_X, THREADS_PER_BLOCK_X)

def runkernelGeom_part003 (name : String) : Nat × Nat :=
  if name = NOP_KERNELNAME then (1, 1)
  else (LEN / THREADS_PER_BLOCK_X, THREADS_PER_BLOCK_X)

def runkernelGeom_part004 (_name : String) : Nat × Nat :=
  (LEN / THREADS_PER_BLOCK_X, THREADS_PER_BLOCK_X)

/-! ### Device buffer allocation (`deviceBO` / `DeviceBO` constructor:
`hipMalloc(size * sizeof(T))` with `T = float`).
main.cpp, part_000, part_003, part_004 construct `deviceBO<float>(LEN)`;
part_002 (lines 65-67) constructs `deviceBO<float>(SIZE)`. -/

def sizeofFloat : Nat := 4

def deviceBOBytes (count : Nat) : Nat := count * sizeofFloat

def devAllocCount_main : Nat := LEN

def devAllocCount_part002 : Nat := SIZE

/-! ### Host-side element accesses in the validation loops.
Each entry records a buffer dereferenced by host code together with the
address space it lives in.  The loop of main.cpp (and part_000/003/004 and
part_001) reads `hostA[i]`, `hostB[i]`, `hostC[i]`.  part_002's loop
(lines 83-91) additionally evaluates
`deviceA.get()[i] == (deviceB.get()[i] + deviceC.get()[i])` on the host. -/

inductive MemSpace where
  | host : MemSpace
  | device : MemSpace
deriving DecidableEq

def hostDerefs_mainValidation : List (String × MemSpace) :=
  [("hostA", MemSpace.host), ("hostB", MemSpace.host), ("hostC", MemSpace.host)]

def hostDerefs_part002Validation : List (String × MemSpace) :=
  [("hostA", MemSpace.host), ("hostB", MemSpace.host), ("hostC", MemSpace.host),
   ("deviceA", MemSpace.device), ("deviceB", MemSpace.device), ("deviceC", MemSpace.device)]

/-! ## Claims -/

/-- C3: `hipCheck(status, note)` is a no-op on `hipSuccess`; on any other
status it raises a failure whose message is exactly
`"<context>: <description> (<symbolic-name>)"`, hence contains the context
string, then the runtime's description, then the symbolic name, in that
order. -/
theorem hipCheck_spec (getStr getName : Nat → String) (status : Nat) (what : String) :
    hipCheck getStr getName hipSuccess what = Except.ok () ∧
    (status ≠ hipSuccess →
      hipCheck getStr getName status what =
        Except.error (what ++ ": " ++ getStr status ++ " (" ++ getName status ++ ")") ∧
      ∃ u v w : String,
        hipErrorMessage getStr getName status what =
          what ++ u ++ getStr status ++ v ++ getName status ++ w) := by
  constructor
  · simp [hipCheck]
  · intro h
    refine ⟨?_, ": ", " (", ")", rfl⟩
    rw [hipCheck, if_pos h]
    rfl

/-- Witness for C3 at status 1 with context "X". -/
theorem hipCheck_spec_witness :
    (1 ≠ hipSuccess) ∧
    hipCheck (fun _ => "desc") (fun _ => "ename") 1 "X" =
      Except.error ("X" ++ ": " ++ "desc" ++ " (" ++ "ename" ++ ")") :=
  ⟨by decide,
   ((hipCheck_spec (fun _ => "desc") (fun _ => "ename") 1 "X").2 (by decide)).1⟩

/-- C2 counterexample: in the revisions whose `main` ends with
`return errors;` (VectorAdd/main.cpp lines 177-183, and part_001, part_002,
part_004), a run with no runtime failure and one recorded validation mismatch
exits with status 1, not 0. -/
theorem mainExit_cex : mainExitReturn 1 = 1 ∧ (1 : Nat) ≠ 0 :=
  ⟨rfl, by decide⟩

/-- C2 amended: the try/catch drivers (part_000, part_003) exit 0 whenever no
failure propagates — the validation error count is discarded — and exit 1 on
an uncaught failure; the `return errors;` drivers (main.cpp, part_001,
part_002, part_004) make the process exit status equal to the validation
error count, so a recorded mismatch yields a nonzero exit. -/
theorem mainExit_amended (n : Nat) (msg : String) (h : 0 < n) :
    mainExitCatch (Except.ok n) = 0 ∧
    mainExitCatch (Except.error msg) = 1 ∧
    mainExitReturn 0 = 0 ∧
    mainExitReturn n ≠ 0 := by
  refine ⟨rfl, rfl, rfl, ?_⟩
  simpa [mainExitReturn] using Nat.pos_iff_ne_zero.mp h

/-- Witness for the amended C2 at one mismatch and message "e". -/
theorem mainExit_amended_witness :
    0 < 1 ∧
    (mainExitCatch (Except.ok 1) = 0 ∧
     mainExitCatch (Except.error "e") = 1 ∧
     mainExitReturn 0 = 0 ∧
     mainExitReturn 1 ≠ 0) :=
  ⟨by decide, mainExit_amended 1 "e" (by decide)⟩

/-- C4 counterexample: part_004's `runkernel` launches every kernel — the
no-op kernel "mynop" included — with grid = LEN/THREADS_PER_BLOCK_X = 32768
and block = THREADS_PER_BLOCK_X = 32, not with grid = 1, block = 1. -/
theorem nop_geometry_cex :
    runkernelGeom_part004 NOP_KERNELNAME = (32768, 32) ∧
    runkernelGeom_part004 NOP_KERNELNAME ≠ (1, 1) := by
  constructor
  · decide
  · decide

/-- C4 amended: in the revisions whose `runkernel` compares the resolved
kernel name against "mynop" (part_000 and part_003), the no-op kernel always
gets grid = 1, block = 1 and any differently named kernel gets
grid = LEN/THREADS_PER_BLOCK_X, block = THREADS_PER_BLOCK_X; part_004's
`runkernel` performs no name comparison and launches every kernel, the no-op
included, with grid = LEN/THREADS_PER_BLOCK_X, block = THREADS_PER_BLOCK_X. -/
theorem nop_geometry_amended (name : String) (hne : name ≠ NOP_KERNELNAME) :
    runkernelGeom_part000 NOP_KERNELNAME = (1, 1) ∧
    runkernelGeom_part003 NOP_KERNELNAME = (1, 1) ∧
    runkernelGeom_part000 name = (LEN / THREADS_PER_BLOCK_X, THREADS_PER_BLOCK_X) ∧
    runkernelGeom_part003 name = (LEN / THREADS_PER_BLOCK_X, THREADS_PER_BLOCK_X) ∧
    runkernelGeom_part004 NOP_KERNELNAME = (LEN / THREADS_PER_BLOCK_X, THREADS_PER_BLOCK_X) := by
  refine ⟨?_, ?_, ?_, ?_, rfl⟩
  · rw [runkernelGeom_part000, if_pos rfl]
  · rw [runkernelGeom_part003, if_pos rfl]
  · rw [runkernelGeom_part000, if_neg hne]
  · rw [runkernelGeom_part003, if_neg hne]

/-- Witness for the amended C4 at the add kernel's name "vectoradd". -/
theorem nop_geometry_amended_witness :
    KERNELNAME ≠ NOP_KERNELNAME ∧
    (runkernelGeom_part000 NOP_KERNELNAME = (1, 1) ∧
     runkernelGeom_part003 NOP_KERNELNAME = (1, 1) ∧
     runkernelGeom_part000 KERNELNAME = (LEN / THREADS_PER_BLOCK_X, THREADS_PER_BLOCK_X) ∧
     runkernelGeom_part003 KERNELNAME = (LEN / THREADS_PER_BLOCK_X, THREADS_PER_BLOCK_X) ∧
     runkernelGeom_part004 NOP_KERNELNAME = (LEN / THREADS_PER_BLOCK_X, THREADS_PER_BLOCK_X)) :=
  ⟨by decide, nop_geometry_amended KERNELNAME (by decide)⟩

/-- C7 counterexample: part_002 constructs its `deviceBO<float>` objects with
`SIZE` (a byte count, 4194304), so the constructor allocates
`SIZE * sizeof(float)` = 16777216 bytes — not `SIZE` bytes. -/
theorem deviceBO_alloc_cex :
    deviceBOBytes devAllocCount_part002 = 16777216 ∧
    SIZE = 4194304 ∧
    deviceBOBytes devAllocCount_part002 ≠ SIZE := by
  refine ⟨by decide, by decide, by decide⟩

/-- C7 amended: in main.cpp, part_000, part_003 and part_004 every device
buffer wrapper is constructed with element count LEN, so the constructor
allocates `LEN * sizeof(float)` = SIZE bytes; part_002 instead passes the
byte count SIZE as the element count, allocating `SIZE * sizeof(float)` =
4 * SIZE bytes, a four-fold over-allocation (part_001 uses raw `hipMalloc`
with no wrapper at all). -/
theorem deviceBO_alloc_amended :
    deviceBOBytes devAllocCount_main = SIZE ∧
    deviceBOBytes devAllocCount_part002 = 4 * SIZE := by
  refine ⟨by decide, by decide⟩

/-- C8: part_002's host-side validation loop dereferences the device-resident
buffers directly (it evaluates `deviceA.get()[i] == deviceB.get()[i] +
deviceC.get()[i]` on the host), violating the invariant that host code only
touches device memory through explicit transfers; the consolidated driver's
loops read only host-space buffers. -/
theorem part002_host_device_deref :
    ("deviceA", MemSpace.device) ∈ hostDerefs_part002Validation ∧
    hostDerefs_mainValidation.map Prod.snd =
      [MemSpace.host, MemSpace.host, MemSpace.host] := by
  refine ⟨by decide, rfl⟩

/-! ### Validation scans.
`scan1` embeds the Phase-1 loop of main.cpp (lines 119-126), part_003
(lines 153-160) and part_004: `if (hostA[i] != hostB[i] + hostC[i]) { errors++;
break; }` — the zeroing side effect is modelled separately by `zeroScan`.
`scan2` embeds the Phase-2 loop of the same revisions: `if (hostA[i] ==
hostB[i] + hostC[i]) continue; errors++; break;`.
`scanAll` embeds part_001's loop (lines 71-76), which has no `break` and
counts every mismatch.
All three return the number of errors recorded when scanning indices
`i, i+1, …, i+n-1`. -/

def scan1 (a b c : Nat → Int) : Nat → Nat → Nat
  | _, 0 => 0
  | i, n + 1 => if a i ≠ b i + c i then 1 else scan1 a b c (i + 1) n

def scan2 (a b c : Nat → Int) : Nat → Nat → Nat
  | _, 0 => 0
  | i, n + 1 => if a i = b i + c i then scan2 a b c (i + 1) n else 1

def scanAll (a b c : Nat → Int) : Nat → Nat → Nat
  | _, 0 => 0
  | i, n + 1 => (if a i ≠ b i + c i then 1 else 0) + scanAll a b c (i + 1) n

/-- The Phase-1 loop of main.cpp also resets each matching entry to zero
before moving on; on the first mismatch it stops, leaving the rest of the
array untouched. -/
def zeroScan (b c : Nat → Int) : (Nat → Int) → Nat → Nat → (Nat → Int)
  | a, _, 0 => a
  | a, i, n + 1 =>
    if a i = b i + c i then zeroScan b c (Function.update a i 0) (i + 1) n else a

theorem scan1_eq_scan2 (a b c : Nat → Int) :
    ∀ (n i : Nat), scan1 a b c i n = scan2 a b c i n := by
  intro n
  induction n with
  | zero => intro i; rfl
  | succ n ih =>
    intro i
    by_cases h : a i = b i + c i
    · rw [scan1, if_neg (by simpa using h), scan2, if_pos h]
      exact ih (i + 1)
    · rw [scan1, if_pos h, scan2, if_neg h]

theorem scan1_le_one (a b c : Nat → Int) :
    ∀ (n i : Nat), scan1 a b c i n ≤ 1 := by
  intro n
  induction n with
  | zero => intro i; exact Nat.zero_le 1
  | succ n ih =>
    intro i
    by_cases h : a i = b i + c i
    · rw [scan1, if_neg (by simpa using h)]
      exact ih (i + 1)
    · rw [scan1, if_pos h]

theorem scan1_pos_iff (a b c : Nat → Int) :
    ∀ (n i : Nat),
      0 < scan1 a b c i n ↔ ∃ j, i ≤ j ∧ j < i + n ∧ a j ≠ b j + c j := by
  intro n
  induction n with
  | zero =>
    intro i
    rw [scan1]
    constructor
    · intro h; exact absurd h (by decide)
    · rintro ⟨j, h1, h2, _⟩; omega
  | succ n ih =>
    intro i
    by_cases h : a i = b i + c i
    · rw [scan1, if_neg (by simpa using h), ih (i + 1)]
      constructor
      · rintro ⟨j, h1, h2, hne⟩
        exact ⟨j, by omega, by omega, hne⟩
      · rintro ⟨j, h1, h2, hne⟩
        have hji : j ≠ i := fun he => hne (he ▸ h)
        exact ⟨j, by omega, by omega, hne⟩
    · rw [scan1, if_pos h]
      constructor
      · intro _
        exact ⟨i, Nat.le_refl i, by omega, h⟩
      · intro _; exact Nat.one_pos

theorem scanAll_pos_iff (a b c : Nat → Int) :
    ∀ (n i : Nat),
      0 < scanAll a b c i n ↔ ∃ j, i ≤ j ∧ j < i + n ∧ a j ≠ b j + c j := by
  intro n
  induction n with
  | zero =>
    intro i
    rw [scanAll]
    constructor
    · intro h; exact absurd h (by decide)
    · rintro ⟨j, h1, h2, _⟩; omega
  | succ n ih =>
    intro i
    by_cases h : a i = b i + c i
    · rw [scanAll, if_neg (by simpa using h), Nat.zero_add, ih (i + 1)]
      constructor
      · rintro ⟨j, h1, h2, hne⟩
        exact ⟨j, by omega, by omega, hne⟩
      · rintro ⟨j, h1, h2, hne⟩
        have hji : j ≠ i := fun he => hne (he ▸ h)
        exact ⟨j, by omega, by omega, hne⟩
    · rw [scanAll, if_pos h]
      constructor
      · intro _
        exact ⟨i, Nat.le_refl i, by omega, h⟩
      · intro _; omega

/-- C5 counterexample: part_001's validation scan does not stop at the first
disagreeing index.  With `A = 0`, `B = 0`, `C = 1` every index disagrees, and
over two indices part_001's loop records two errors — a scan that stopped at
the first disagreement would record at most one. -/
theorem validation_scan_cex :
    scanAll (fun _ => 0) (fun _ => 0) (fun _ => 1) 0 2 = 2 ∧
    ¬ scanAll (fun _ => 0) (fun _ => 0) (fun _ => 1) 0 2 ≤ 1 := by
  constructor
  · rfl
  · rw [(rfl : scanAll (fun _ => 0) (fun _ => 0) (fun _ => 1) 0 2 = 2)]
    decide

/-- C5 amended: the break-style Phase-1 scan and the continue/break-style
Phase-2 scan (main.cpp, part_000, part_003, part_004) are behaviorally
identical: they return equal error counts on all inputs, the count never
exceeds one (the scan stops at the first disagreement), and an error is
recorded iff some scanned index disagrees.  part_001's scan instead counts
every disagreeing index — it does not stop at the first mismatch — but it
still records an error iff at least one scanned index disagrees. -/
theorem validation_scans_amended (a b c : Nat → Int) (i n : Nat) :
    scan1 a b c i n = scan2 a b c i n ∧
    scan1 a b c i n ≤ 1 ∧
    (0 < scan1 a b c i n ↔ ∃ j, i ≤ j ∧ j < i + n ∧ a j ≠ b j + c j) ∧
    (0 < scanAll a b c i n ↔ ∃ j, i ≤ j ∧ j < i + n ∧ a j ≠ b j + c j) :=
  ⟨scan1_eq_scan2 a b c n i, scan1_le_one a b c n i,
   scan1_pos_iff a b c n i, scanAll_pos_iff a b c n i⟩

theorem zeroScan_aux (b c : Nat → Int) :
    ∀ (n : Nat) (a : Nat → Int) (i k j : Nat), i ≤ k → k ≤ i + n →
      (∀ m, i ≤ m → m < k → a m = b m + c m) →
      (k < i + n → a k ≠ b k + c k) →
      zeroScan b c a i n j = if i ≤ j ∧ j < k then 0 else a j := by
  intro n
  induction n with
  | zero =>
    intro a i k j hik hki _ _
    have hk : k = i := by omega
    subst hk
    rw [zeroScan, if_neg (by omega)]
  | succ n ih =>
    intro a i k j hik hki hmatch hstop
    by_cases hmis : a i = b i + c i
    · have hik1 : i + 1 ≤ k := by
        by_contra hcon
        have hk : k = i := by omega
        apply hstop (by omega)
        rw [hk]
        exact hmis
      rw [zeroScan, if_pos hmis,
          ih (Function.update a i 0) (i + 1) k j hik1 (by omega)
            (fun m hm1 hm2 => by
              rw [Function.update_noteq (by omega : m ≠ i)]
              exact hmatch m (by omega) hm2)
            (fun hk => by
              rw [Function.update_noteq (by omega : k ≠ i)]
              exact hstop (by omega))]
      by_cases hji : j = i
      · subst hji
        rw [if_neg (by omega), if_pos ⟨Nat.le_refl j, by omega⟩, Function.update_same]
      · rw [Function.update_noteq hji]
        by_cases hcond : i ≤ j ∧ j < k
        · rw [if_pos ⟨by omega, hcond.2⟩, if_pos hcond]
        · rw [if_neg (fun hc => hcond ⟨by omega, hc.2⟩), if_neg hcond]
    · have hk : k = i := by
        by_contra hcon
        exact hmis (hmatch i (Nat.le_refl i) (by omega))
      subst hk
      rw [zeroScan, if_neg hmis, if_neg (by omega)]

/-- C10: if the first disagreement of the copied-back `A` with `B + C` is at
index `k` (all earlier entries agree, and `A[k]` disagrees whenever `k` lies
inside the scanned range), then after the Phase-1 validation scan of
`n = LEN` entries exactly the entries `A[0..k)` have been reset to 0 and
every entry from `k` on still holds its copied-back value; when no mismatch
exists (`k = n`) every scanned entry is reset and entries beyond the scan are
untouched. -/
theorem phase1_zeroScan_frame (a b c : Nat → Int) (n k j : Nat)
    (hkn : k ≤ n)
    (hmatch : ∀ m, m < k → a m = b m + c m)
    (hstop : k < n → a k ≠ b k + c k) :
    zeroScan b c a 0 n j = if j < k then 0 else a j := by
  rw [zeroScan_aux b c n a 0 k j (Nat.zero_le k) (by omega)
      (fun m _ hm => hmatch m hm) (fun hk => hstop (by omega))]
  by_cases hj : j < k
  · rw [if_pos ⟨Nat.zero_le j, hj⟩, if_pos hj]
  · rw [if_neg (fun hc => hj hc.2), if_neg hj]

/-- Witness for C10: `B = C = 0` and `A = (0, 5, 5, …)`, whose first
disagreement is at index 1; scanning three entries leaves `A[2]` at its
original value 5 while `A[0]` is zeroed. -/
theorem phase1_zeroScan_frame_witness :
    (1 ≤ 3) ∧
    zeroScan (fun _ => 0) (fun _ => 0) (fun m => if m < 1 then 0 else 5) 0 3 2 =
      (if 2 < 1 then 0 else (fun m => if m < 1 then (0 : Int) else 5) 2) ∧
    zeroScan (fun _ => 0) (fun _ => 0) (fun m => if m < 1 then 0 else 5) 0 3 0 =
      (if 0 < 1 then 0 else (fun m => if m < 1 then (0 : Int) else 5) 0) := by
  refine ⟨by decide, ?_, ?_⟩
  · refine phase1_zeroScan_frame (fun m => if m < 1 then 0 else 5)
      (fun _ => 0) (fun _ => 0) 3 1 2 (by decide) ?_ ?_
    · intro m hm
      have hm0 : m = 0 := by omega
      subst hm0
      decide
    · intro _
      decide
  · refine phase1_zeroScan_frame (fun m => if m < 1 then 0 else 5)
      (fun _ => 0) (fun _ => 0) 3 1 0 (by decide) ?_ ?_
    · intro m hm
      have hm0 : m = 0 := by omega
      subst hm0
      decide
    · intro _
      decide

/-! ### Host vector initialisation (Phase 0).
main.cpp (lines 82-86), part_000, part_002, part_003 and part_004 set
`hostB[i] = i; hostC[i] = i * 2; hostA[i] = 0;`.
part_001 (lines 45-49) instead sets `hostA[i] = hostB[i] + hostC[i];`. -/

def hostB_init (i : Nat) : Int := i

def hostC_init (i : Nat) : Int := i * 2

def hostA_init (_i : Nat) : Int := 0

def hostA_init_part001 (i : Nat) : Int := hostB_init i + hostC_init i

/-! ### Device buffers and host-to-device transfers (Phase 1 setup).
A freshly `hipMalloc`ed buffer holds no defined contents (`none`); a
host-to-device `hipMemcpy` of `SIZE` bytes copies the first `LEN` elements.
The driver copies `B` and `C` and never copies into `A`
(main.cpp lines 93-94). -/

def emptyDev : Nat → Option Int := fun _ => none

def memcpyH2D (dst : Nat → Option Int) (src : Nat → Int) (len : Nat) :
    Nat → Option Int :=
  fun j => if j < len then some (src j) else dst j

structure Phase1Dev where
  devA : Nat → Option Int
  devB : Nat → Option Int
  devC : Nat → Option Int

def phase1Setup : Phase1Dev :=
  { devA := emptyDev
  , devB := memcpyH2D emptyDev hostB_init LEN
  , devC := memcpyH2D emptyDev hostC_init LEN }

/-! ### The `vectoradd` kernel (kernel.cpp lines 7-13).
Each lane computes `i = hipBlockDim_x * hipBlockIdx_x + hipThreadIdx_x` and
writes `a[i] = b[i] + c[i]`.  A launch with geometry (gridX, blockX) runs one
lane for every pair (blockIdx, threadIdx) with blockIdx < gridX and
threadIdx < blockX; `launchWrites` is the set of indices those lanes write.
The drivers launch the kernel `LOOP` times back-to-back; `launchIter`
iterates the launch. -/

def laneIndex (blockDimX blockIdxX threadIdxX : Nat) : Nat :=
  blockDimX * blockIdxX + threadIdxX

def launchWrites (gridX blockX : Nat) : Finset Nat :=
  (Finset.range gridX ×ˢ Finset.range blockX).image fun p => laneIndex blockX p.1 p.2

def vectoraddLaunch (gridX blockX : Nat) (b c : Nat → Int) (a : Nat → Int) :
    Nat → Int :=
  fun j => if j ∈ launchWrites gridX blockX then b j + c j else a j

def launchIter (gridX blockX : Nat) (b c : Nat → Int) : Nat → (Nat → Int) → (Nat → Int)
  | 0, a => a
  | n + 1, a => vectoraddLaunch gridX blockX b c (launchIter gridX blockX b c n a)

theorem mem_launchWrites (gridX blockX j : Nat) :
    j ∈ launchWrites gridX blockX ↔ j < gridX * blockX := by
  rw [launchWrites]
  simp only [Finset.mem_image, Finset.mem_product, Finset.mem_range, laneIndex, Prod.exists]
  constructor
  · rintro ⟨bi, ti, ⟨hbi, hti⟩, rfl⟩
    calc blockX * bi + ti < blockX * bi + blockX := by omega
    _ = blockX * (bi + 1) := by ring
    _ ≤ blockX * gridX := Nat.mul_le_mul_left blockX hbi
    _ = gridX * blockX := Nat.mul_comm blockX gridX
  · intro hj
    have hbl : 0 < blockX := by
      rcases Nat.eq_zero_or_pos blockX with h0 | h0
      · rw [h0, Nat.mul_zero] at hj
        exact absurd hj (Nat.not_lt_zero j)
      · exact h0
    refine ⟨j / blockX, j % blockX, ⟨?_, Nat.mod_lt j hbl⟩, Nat.div_add_mod j blockX⟩
    exact (Nat.div_lt_iff_lt_mul hbl).mpr hj

theorem launchIter_covered (gridX blockX : Nat) (b c : Nat → Int) :
    ∀ (n : Nat) (a : Nat → Int) (j : Nat), 0 < n → j ∈ launchWrites gridX blockX →
      launchIter gridX blockX b c n a j = b j + c j := by
  intro n
  induction n with
  | zero => intro a j hn _; exact absurd hn (by decide)
  | succ n _ =>
    intro a j _ hj
    rw [launchIter, vectoraddLaunch, if_pos hj]

attribute [irreducible] launchWrites

/-- C1: after Phase 1 — inputs `B[i] = i`, `C[i] = 2*i`, the add kernel
launched `LOOP` times with grid = LEN/THREADS_PER_BLOCK_X and
block = THREADS_PER_BLOCK_X, and the result copied back — every element of
`A` with index below LEN = 0x100000 equals `B[i] + C[i] = 3*i`, whatever the
device output buffer held beforehand. -/
theorem phase1_vectoradd_result (a0 : Nat → Int) (i : Nat) (h : i < LEN) :
    launchIter (LEN / THREADS_PER_BLOCK_X) THREADS_PER_BLOCK_X hostB_init hostC_init
        LOOP_main a0 i = hostB_init i + hostC_init i ∧
    launchIter (LEN / THREADS_PER_BLOCK_X) THREADS_PER_BLOCK_X hostB_init hostC_init
        LOOP_main a0 i = 3 * (i : Int) := by
  have hgeom : LEN / THREADS_PER_BLOCK_X * THREADS_PER_BLOCK_X = LEN := by
    norm_num [LEN, THREADS_PER_BLOCK_X]
  have hmem : i ∈ launchWrites (LEN / THREADS_PER_BLOCK_X) THREADS_PER_BLOCK_X := by
    rw [mem_launchWrites, hgeom]
    exact h
  have hval := launchIter_covered (LEN / THREADS_PER_BLOCK_X) THREADS_PER_BLOCK_X
    hostB_init hostC_init LOOP_main a0 i (by norm_num [LOOP_main]) hmem
  refine ⟨hval, ?_⟩
  rw [hval, hostB_init, hostC_init]
  ring

/-- Witness for C1 at index 5: the copied-back value is 3 * 5. -/
theorem phase1_vectoradd_result_witness :
    5 < LEN ∧
    launchIter (LEN / THREADS_PER_BLOCK_X) THREADS_PER_BLOCK_X hostB_init hostC_init
        LOOP_main (fun _ => 0) 5 = 3 * ((5 : Nat) : Int) :=
  ⟨by decide, (phase1_vectoradd_result (fun _ => 0) 5 (by decide)).2⟩

/-- C6 counterexample: part_001's Phase-0 initialisation does not zero the
output vector — it seeds `A[i]` with `B[i] + C[i]`, so `A[1] = 3`, not 0. -/
theorem hostA_init_cex : hostA_init_part001 1 = 3 ∧ (3 : Int) ≠ 0 := by
  refine ⟨by decide, by decide⟩

/-- C6 amended: every revision except part_001 initialises `B[i] = i`,
`C[i] = 2*i`, `A[i] = 0`; part_001 instead pre-seeds `A[i] = B[i] + C[i]
= 3*i`.  In all revisions Phase 1 transfers only `B` and `C` host-to-device:
after setup the device copy of `A` holds no transferred data, while the
device copies of `B` and `C` hold the host contents. -/
theorem phase0_init_amended (i j : Nat) (hj : j < LEN) :
    hostA_init i = 0 ∧
    hostB_init i = (i : Int) ∧
    hostC_init i = (i : Int) * 2 ∧
    hostA_init_part001 i = 3 * (i : Int) ∧
    phase1Setup.devA i = none ∧
    phase1Setup.devB j = some ((j : Int)) ∧
    phase1Setup.devC j = some ((j : Int) * 2) := by
  refine ⟨rfl, rfl, rfl, ?_, rfl, ?_, ?_⟩
  · rw [hostA_init_part001, hostB_init, hostC_init]
    ring
  · rw [phase1Setup]
    rw [show Phase1Dev.devB
        { devA := emptyDev
        , devB := memcpyH2D emptyDev hostB_init LEN
        , devC := memcpyH2D emptyDev hostC_init LEN } =
      memcpyH2D emptyDev hostB_init LEN from rfl]
    rw [memcpyH2D]
    simp only [if_pos hj]
    rfl
  · rw [phase1Setup]
    rw [show Phase1Dev.devC
        { devA := emptyDev
        , devB := memcpyH2D emptyDev hostB_init LEN
        , devC := memcpyH2D emptyDev hostC_init LEN } =
      memcpyH2D emptyDev hostC_init LEN from rfl]
    rw [memcpyH2D]
    simp only [if_pos hj]
    rfl

/-- Witness for the amended C6 at i = 1, j = 1. -/
theorem phase0_init_amended_witness :
    1 < LEN ∧
    (hostA_init 1 = 0 ∧
     hostB_init 1 = ((1 : Nat) : Int) ∧
     hostC_init 1 = ((1 : Nat) : Int) * 2 ∧
     hostA_init_part001 1 = 3 * ((1 : Nat) : Int) ∧
     phase1Setup.devA 1 = none ∧
     phase1Setup.devB 1 = some (((1 : Nat) : Int)) ∧
     phase1Setup.devC 1 = some (((1 : Nat) : Int) * 2)) :=
  ⟨by decide, phase0_init_amended 1 1 (by decide)⟩

/-! ### Throughput and latency metrics in `runkernel`.
part_003 (lines 79-81) and part_004 (lines 79-81) measure `delayD`
microseconds for `LOOP` launches and print
`(LOOP * 1000000.0)/delayD` ops/s and `delayD/LOOP` us average latency —
the former in floating point (modelled exactly in `ℚ`), the latter with
C++ integer division.  `throughputDerived`/`avgLatencyDerived` are the
quantities the spec derives abstractly, in consistent units of seconds. -/

def elapsedSeconds (delayUs : Nat) : ℚ := (delayUs : ℚ) / 1000000

def throughputDerived (loops delayUs : Nat) : ℚ := (loops : ℚ) / elapsedSeconds delayUs

def avgLatencyDerived (loops delayUs : Nat) : ℚ := elapsedSeconds delayUs / (loops : ℚ)

def throughputOpsPerSec (loops delayUs : Nat) : ℚ := ((loops : ℚ) * 1000000) / (delayUs : ℚ)

def avgLatencyUsReported (loops delayUs : Nat) : Nat := delayUs / loops

/-- C9 counterexample: with `LOOP = 1 > 0` and elapsed time `1 us > 0`, the
values `runkernel` actually computes and reports — throughput in ops/s and
average pipelined latency in whole microseconds — multiply to 1000000, not
to 1: the reported numbers are reciprocal only up to the second/microsecond
unit factor, and the reported latency additionally truncates to whole
microseconds. -/
theorem throughput_latency_cex :
    throughputOpsPerSec 1 1 * ((avgLatencyUsReported 1 1 : ℚ)) = 1000000 ∧
    throughputOpsPerSec 1 1 * ((avgLatencyUsReported 1 1 : ℚ)) ≠ 1 := by
  constructor
  · norm_num [throughputOpsPerSec, avgLatencyUsReported]
  · norm_num [throughputOpsPerSec, avgLatencyUsReported]

/-- C9 amended: for any `LOOP > 0` and elapsed time `> 0`, the abstractly
derived throughput `LOOP / elapsed_seconds` and average pipelined latency
`elapsed_seconds / LOOP` are exact reciprocals (product exactly 1), and the
ops/s figure `runkernel` prints equals that derived throughput; but the
average latency `runkernel` prints is the integer division `delay_us / LOOP`,
so the product of the two printed numbers equals 1000000 (the
microsecond/second unit factor) — and that only when `LOOP` divides the
elapsed microseconds exactly; it is never 1. -/
theorem throughput_latency_amended (loops delayUs : Nat)
    (hl : 0 < loops) (hd : 0 < delayUs) :
    throughputDerived loops delayUs * avgLatencyDerived loops delayUs = 1 ∧
    throughputOpsPerSec loops delayUs = throughputDerived loops delayUs ∧
    (loops ∣ delayUs →
      throughputOpsPerSec loops delayUs * ((avgLatencyUsReported loops delayUs : ℚ)) =
        1000000) := by
  have hl0 : (loops : ℚ) ≠ 0 := Nat.cast_ne_zero.mpr (Nat.pos_iff_ne_zero.mp hl)
  have hd0 : (delayUs : ℚ) ≠ 0 := Nat.cast_ne_zero.mpr (Nat.pos_iff_ne_zero.mp hd)
  refine ⟨?_, ?_, ?_⟩
  · rw [throughputDerived, avgLatencyDerived, elapsedSeconds]
    field_simp
    ring
  · rw [throughputOpsPerSec, throughputDerived, elapsedSeconds]
    field_simp
  · intro hdvd
    rw [throughputOpsPerSec, avgLatencyUsReported, Nat.cast_div hdvd hl0]
    field_simp

/-- Witness for the amended C9 at `LOOP = 2`, elapsed 4 us. -/
theorem throughput_latency_amended_witness :
    0 < 2 ∧ 0 < 4 ∧ (2 : Nat) ∣ 4 ∧
    throughputDerived 2 4 * avgLatencyDerived 2 4 = 1 ∧
    throughputOpsPerSec 2 4 = throughputDerived 2 4 ∧
    throughputOpsPerSec 2 4 * ((avgLatencyUsReported 2 4 : ℚ)) = 1000000 :=
  ⟨by decide, by decide, by decide,
   (throughput_latency_amended 2 4 (by decide) (by decide)).1,
   (throughput_latency_amended 2 4 (by decide) (by decide)).2.1,
   (throughput_latency_amended 2 4 (by decide) (by decide)).2.2 (by decide)⟩
